import Mathlib

/-!
Verification of rlkit/torch/sac/sac.py (SACTrainer).

The trainer's tensors are embedded as lists of rationals (one entry per batch
row, or one per flattened parameter).  Autograd connectivity is embedded as a
list of parameter groups a tensor is connected to in the autograd graph:
detach() empties the list, and every arithmetic operation takes the union of
its arguments' lists.  The external collaborators (the policy and Q networks,
the optimizers, torch.exp, np.std) are capabilities passed in a Caps record:
the trainer only orchestrates calls to them, exactly as the source file does.
Stateful code is embedded as explicit state passing: train_from_torch becomes
a function from a TrainerState (and a batch, and the capabilities) to a new
TrainerState together with a trace of the side-effecting operations in the
order the source performs them.
-/

namespace RlkitSac

/-- Parameter groups of the five networks and of log_alpha; a tensor's
autograd connectivity is the list of groups it can propagate gradient to. -/
inductive PGroup where
  | policyG | qf1G | qf2G | tqf1G | tqf2G | logAlphaG
deriving DecidableEq, Repr

/-- A scalar tensor: value plus autograd connectivity. -/
structure TS where
  val : ℚ
  deps : List PGroup
deriving DecidableEq, Repr

/-- A batch (1-D) tensor: per-row values plus autograd connectivity. -/
structure TV where
  vals : List ℚ
  deps : List PGroup
deriving DecidableEq, Repr

/-- A diagnostic value: a number, or the np.nan sentinel. -/
inductive StatVal where
  | num (q : ℚ)
  | nan
deriving DecidableEq, Repr

/-- Result of one policy forward pass with return_log_prob=True:
(action, mean, log_std, log_prob). -/
structure PolicyOut where
  action : List ℚ
  policyMean : List ℚ
  policyLogStd : List ℚ
  logPi : List ℚ
deriving DecidableEq, Repr

/-- One training batch, mirroring the dict keys read at sac.py lines 78-82. -/
structure Batch where
  rewards : List ℚ
  terminals : List ℚ
  observations : List ℚ
  actions : List ℚ
  nextObservations : List ℚ
deriving DecidableEq, Repr

/-- External capabilities: network forward passes, the backward+optimizer
steps (abstracted as parameter-update functions from the loss value), torch
exp, np.std, and the gradient norms returned by clip_grad_norm_. -/
structure Caps where
  policyF : List ℚ → List ℚ → PolicyOut
  qfF : List ℚ → List ℚ → List ℚ → List ℚ
  policyStep : ℚ → List ℚ → List ℚ
  qf1Step : ℚ → List ℚ → List ℚ
  qf2Step : ℚ → List ℚ → List ℚ
  alphaStep : ℚ → ℚ → ℚ
  expC : ℚ → ℚ
  stdF : List ℚ → ℚ
  policyNorm : ℚ
  qf1Norm : ℚ
  qf2Norm : ℚ

/-- The SACTrainer attributes set in __init__ (sac.py lines 37-75).  The
optimizer attributes are Option: none models the attribute never having been
assigned (the source only assigns them when the constructor argument is None,
lines 62-69). -/
structure TrainerState where
  policyP : List ℚ
  qf1P : List ℚ
  qf2P : List ℚ
  tqf1P : List ℚ
  tqf2P : List ℚ
  softTargetTau : ℚ
  targetUpdatePeriod : ℕ
  alpha : ℚ
  useAutomaticEntropyTuning : Bool
  targetEntropy : ℚ
  logAlpha : ℚ
  policyOptimizer : Option Unit
  qf1Optimizer : Option Unit
  qf2Optimizer : Option Unit
  discount : ℚ
  rewardScale : ℚ
  evalStatistics : List (String × StatVal)
  nTrainStepsTotal : ℕ
  needToUpdateEvalStatistics : Bool
deriving DecidableEq, Repr

/-- Constructor arguments of SACTrainer that the claims depend on. -/
structure InitArgs where
  policyP : List ℚ
  qf1P : List ℚ
  qf2P : List ℚ
  tqf1P : List ℚ
  tqf2P : List ℚ
  discount : ℚ
  rewardScale : ℚ
  softTargetTau : ℚ
  targetUpdatePeriod : ℕ
  alpha : ℚ
  useAutomaticEntropyTuning : Bool
  targetEntropy : Option ℚ
  actionDimProd : ℚ
  policyOptimizer : Option Unit
  qf1Optimizer : Option Unit
  qf2Optimizer : Option Unit
deriving DecidableEq, Repr

/-- SACTrainer.__init__ (sac.py lines 37-75).  target_entropy follows Python
truthiness at line 50: a supplied value of 0 (or None) falls through to the
heuristic -prod(action_space.shape).  An optimizer attribute is assigned (some)
only when the corresponding constructor argument is None (lines 62-69); a
supplied optimizer is dropped and the attribute stays unset (none).
log_alpha is ptu.zeros(1) (line 55); when auto-tuning is off the source never
assigns target_entropy or log_alpha, and this model gives them the unread
default 0. -/
def initTrainer (a : InitArgs) : TrainerState where
  policyP := a.policyP
  qf1P := a.qf1P
  qf2P := a.qf2P
  tqf1P := a.tqf1P
  tqf2P := a.tqf2P
  softTargetTau := a.softTargetTau
  targetUpdatePeriod := a.targetUpdatePeriod
  alpha := a.alpha
  useAutomaticEntropyTuning := a.useAutomaticEntropyTuning
  targetEntropy :=
    if a.useAutomaticEntropyTuning then
      match a.targetEntropy with
      | some t => if t ≠ 0 then t else -a.actionDimProd
      | none => -a.actionDimProd
    else 0
  logAlpha := 0
  policyOptimizer := if a.policyOptimizer.isSome then none else some ()
  qf1Optimizer := if a.qf1Optimizer.isSome then none else some ()
  qf2Optimizer := if a.qf2Optimizer.isSome then none else some ()
  discount := a.discount
  rewardScale := a.rewardScale
  evalStatistics := []
  nTrainStepsTotal := 0
  needToUpdateEvalStatistics := true

/-- Mean of a batch tensor, as in torch .mean(). -/
def mean (xs : List ℚ) : ℚ := xs.sum / xs.length

/-- nn.MSELoss() with the default mean reduction. -/
def mse (pred target : List ℚ) : ℚ :=
  mean (List.zipWith (fun a b => (a - b) ^ 2) pred target)

/-- Elementwise combination of three equal-length batch tensors. -/
def zipW3 (f : ℚ → ℚ → ℚ → ℚ) : List ℚ → List ℚ → List ℚ → List ℚ
  | r :: rs, t :: ts, v :: vs => f r t v :: zipW3 f rs ts vs
  | _, _, _ => []

/-- Maximum entry of a batch tensor (np.max; 0 on an empty batch). -/
def listMax : List ℚ → ℚ
  | [] => 0
  | x :: xs => xs.foldl max x

/-- Minimum entry of a batch tensor (np.min; 0 on an empty batch). -/
def listMin : List ℚ → ℚ
  | [] => 0
  | x :: xs => xs.foldl min x

/-- First policy forward pass, on current observations (sac.py lines 86-88). -/
def peOne (s : TrainerState) (b : Batch) (c : Caps) : PolicyOut :=
  c.policyF s.policyP b.observations

/-- log_pi from the first policy evaluation; connected to the policy
parameters through reparameterized sampling. -/
def logPiT (s : TrainerState) (b : Batch) (c : Caps) : TV :=
  ⟨(peOne s b c).logPi, [PGroup.policyG]⟩

/-- alpha_loss = -(log_alpha * (log_pi + target_entropy).detach()).mean()
(sac.py lines 90-92); the detach leaves only log_alpha connected.  0 when
auto-tuning is disabled (line 98). -/
def alphaLossOf (s : TrainerState) (b : Batch) (c : Caps) : TS :=
  if s.useAutomaticEntropyTuning then
    ⟨-(mean ((logPiT s b c).vals.map (fun l => s.logAlpha * (l + s.targetEntropy)))),
     [PGroup.logAlphaG]⟩
  else ⟨0, []⟩

/-- log_alpha after the alpha_optimizer step (sac.py lines 93-95); unchanged
when auto-tuning is disabled. -/
def logAlphaStepped (s : TrainerState) (b : Batch) (c : Caps) : ℚ :=
  if s.useAutomaticEntropyTuning then c.alphaStep (alphaLossOf s b c).val s.logAlpha
  else s.logAlpha

/-- alpha = self.log_alpha.exp() (sac.py line 96) -- note the source does not
detach, so alpha stays connected to log_alpha -- or the fixed constant
self.alpha (line 99), a leaf with no connectivity. -/
def alphaUsed (s : TrainerState) (b : Batch) (c : Caps) : TS :=
  if s.useAutomaticEntropyTuning then
    ⟨c.expC (logAlphaStepped s b c), [PGroup.logAlphaG]⟩
  else ⟨s.alpha, []⟩

/-- q_new_actions = torch.min(qf1(obs, new_obs_actions), qf2(obs,
new_obs_actions)) (sac.py lines 101-103), evaluated at the entry-state (live,
pre-update) critic parameters. -/
def qNewActions (s : TrainerState) (b : Batch) (c : Caps) : TV :=
  ⟨List.zipWith min (c.qfF s.qf1P b.observations (peOne s b c).action)
                    (c.qfF s.qf2P b.observations (peOne s b c).action),
   [PGroup.qf1G, PGroup.qf2G, PGroup.policyG]⟩

/-- policy_loss = (alpha * log_pi - q_new_actions).mean() (sac.py line 104),
the loss actually backpropagated at line 132. -/
def policyLossOf (s : TrainerState) (b : Batch) (c : Caps) : TS :=
  ⟨mean (List.zipWith (fun l q => (alphaUsed s b c).val * l - q)
          (logPiT s b c).vals (qNewActions s b c).vals),
   (alphaUsed s b c).deps ++ (logPiT s b c).deps ++ (qNewActions s b c).deps⟩

/-- q1_pred = qf1(obs, actions) (sac.py line 108), on the replayed actions. -/
def q1PredT (s : TrainerState) (b : Batch) (c : Caps) : TV :=
  ⟨c.qfF s.qf1P b.observations b.actions, [PGroup.qf1G]⟩

/-- q2_pred = qf2(obs, actions) (sac.py line 109). -/
def q2PredT (s : TrainerState) (b : Batch) (c : Caps) : TV :=
  ⟨c.qfF s.qf2P b.observations b.actions, [PGroup.qf2G]⟩

/-- Second policy forward pass, on next_observations (sac.py lines 111-113):
the fresh bootstrap action. -/
def peTwo (s : TrainerState) (b : Batch) (c : Caps) : PolicyOut :=
  c.policyF s.policyP b.nextObservations

/-- target_q_values = min(target_qf1(next_obs, new_next_actions),
target_qf2(next_obs, new_next_actions)) - alpha * new_log_pi
(sac.py lines 114-120). -/
def targetQValuesT (s : TrainerState) (b : Batch) (c : Caps) : TV :=
  ⟨List.zipWith (fun m l => m - (alphaUsed s b c).val * l)
      (List.zipWith min (c.qfF s.tqf1P b.nextObservations (peTwo s b c).action)
                        (c.qfF s.tqf2P b.nextObservations (peTwo s b c).action))
      (peTwo s b c).logPi,
   [PGroup.tqf1G, PGroup.tqf2G, PGroup.policyG] ++ (alphaUsed s b c).deps⟩

/-- q_target = reward_scale * rewards + (1 - terminals) * discount *
target_q_values (sac.py lines 122-125). -/
def qTargetT (s : TrainerState) (b : Batch) (c : Caps) : TV :=
  ⟨zipW3 (fun r t v => s.rewardScale * r + (1 - t) * s.discount * v)
      b.rewards b.terminals (targetQValuesT s b c).vals,
   (targetQValuesT s b c).deps⟩

/-- q_target.detach() as passed to the criterion (sac.py lines 126-127). -/
def qTargetDetachedT (s : TrainerState) (b : Batch) (c : Caps) : TV :=
  ⟨(qTargetT s b c).vals, []⟩

/-- qf1_loss = self.qf_criterion(q1_pred, q_target.detach()) (sac.py
line 126). -/
def qf1LossOf (s : TrainerState) (b : Batch) (c : Caps) : TS :=
  ⟨mse (q1PredT s b c).vals (qTargetDetachedT s b c).vals,
   (q1PredT s b c).deps ++ (qTargetDetachedT s b c).deps⟩

/-- qf2_loss = self.qf_criterion(q2_pred, q_target.detach()) (sac.py
line 127). -/
def qf2LossOf (s : TrainerState) (b : Batch) (c : Caps) : TS :=
  ⟨mse (q2PredT s b c).vals (qTargetDetachedT s b c).vals,
   (q2PredT s b c).deps ++ (qTargetDetachedT s b c).deps⟩

/-- Policy parameters after the backward pass and optimizer step (sac.py
lines 131-134). -/
def policyStepped (s : TrainerState) (b : Batch) (c : Caps) : List ℚ :=
  c.policyStep (policyLossOf s b c).val s.policyP

/-- qf1 parameters after its backward pass and optimizer step (sac.py
lines 136-139). -/
def qf1Stepped (s : TrainerState) (b : Batch) (c : Caps) : List ℚ :=
  c.qf1Step (qf1LossOf s b c).val s.qf1P

/-- qf2 parameters after its backward pass and optimizer step (sac.py
lines 141-144). -/
def qf2Stepped (s : TrainerState) (b : Batch) (c : Caps) : List ℚ :=
  c.qf2Step (qf2LossOf s b c).val s.qf2P

/-- Modelled from the spec: ptu.soft_update_from_to (rlkit.torch.pytorch_util,
not under src) -- for every matching parameter, target becomes
tau * online + (1 - tau) * target (elementwise exponential moving average). -/
def softUpd (tau : ℚ) (online target : List ℚ) : List ℚ :=
  List.zipWith (fun o t => tau * o + (1 - tau) * t) online target

/-- Trigger condition of the soft update (sac.py line 148), evaluated on the
entry-state counter, before the increment at line 196. -/
def syncNow (s : TrainerState) : Bool :=
  s.nTrainStepsTotal % s.targetUpdatePeriod == 0

/-- target_qf1 parameters after the conditional soft update (sac.py
lines 148-149); the online side is qf1 after its optimizer step. -/
def newTqf1 (s : TrainerState) (b : Batch) (c : Caps) : List ℚ :=
  if syncNow s then softUpd s.softTargetTau (qf1Stepped s b c) s.tqf1P else s.tqf1P

/-- target_qf2 parameters after the conditional soft update (sac.py
lines 148-150). -/
def newTqf2 (s : TrainerState) (b : Batch) (c : Caps) : List ℚ :=
  if syncNow s then softUpd s.softTargetTau (qf2Stepped s b c) s.tqf2P else s.tqf2P

/-- The recomputed reporting-only policy loss (sac.py line 160):
(log_pi - q_new_actions).mean(), without the alpha factor. -/
def reportedPolicyLoss (s : TrainerState) (b : Batch) (c : Caps) : ℚ :=
  mean (List.zipWith (fun l q => l - q) (logPiT s b c).vals (qNewActions s b c).vals)

/-- Modelled from the spec: create_stats_ordered_dict (rlkit.core.eval_util,
not under src) -- distributional summaries (mean/std/max/min) of a batch
tensor, keyed by the metric name. -/
def statsDictM (name : String) (xs : List ℚ) (c : Caps) : List (String × StatVal) :=
  [(name ++ " Mean", StatVal.num (mean xs)),
   (name ++ " Std", StatVal.num (c.stdF xs)),
   (name ++ " Max", StatVal.num (listMax xs)),
   (name ++ " Min", StatVal.num (listMin xs))]

/-- The sequence of key-value writes into eval_statistics performed by the
recompute branch, in source order (sac.py lines 162-195).  The Q1/Q2
Predictions summaries are written twice, as in the source (lines 168-179). -/
def statsOps (s : TrainerState) (b : Batch) (c : Caps) : List (String × StatVal) :=
  [("QF1 Loss", StatVal.num (qf1LossOf s b c).val),
   ("QF2 Loss", StatVal.num (qf2LossOf s b c).val),
   ("Policy Loss", StatVal.num (reportedPolicyLoss s b c)),
   ("QF1 Grad Norm", StatVal.num c.qf1Norm),
   ("QF2 Grad Norm", StatVal.num c.qf2Norm),
   ("Policy Grad Norm", StatVal.num c.policyNorm)]
  ++ statsDictM "Q1 Predictions" (q1PredT s b c).vals c
  ++ statsDictM "Q2 Predictions" (q2PredT s b c).vals c
  ++ statsDictM "Q1 Predictions" (q1PredT s b c).vals c
  ++ statsDictM "Q2 Predictions" (q2PredT s b c).vals c
  ++ statsDictM "Q Targets" (qTargetT s b c).vals c
  ++ statsDictM "Log Pis" (logPiT s b c).vals c
  ++ statsDictM "Policy mu" (peOne s b c).policyMean c
  ++ statsDictM "Policy log std" (peOne s b c).policyLogStd c
  ++ [("Alpha", StatVal.num (alphaUsed s b c).val),
      ("Alpha Loss",
        if s.useAutomaticEntropyTuning then StatVal.num (alphaLossOf s b c).val
        else StatVal.nan)]

/-- One OrderedDict key write: overwrite in place if the key exists (keeping
its position), otherwise append at the end. -/
def updOne : List (String × StatVal) → String → StatVal → List (String × StatVal)
  | [], k, v => [(k, v)]
  | p :: rest, k, v => if p.1 = k then (k, v) :: rest else p :: updOne rest k v

/-- Apply a sequence of OrderedDict key writes, left to right. -/
def applyOps (m : List (String × StatVal)) (ops : List (String × StatVal)) :
    List (String × StatVal) :=
  ops.foldl (fun acc p => updOne acc p.1 p.2) m

/-- OrderedDict lookup. -/
def findStat : List (String × StatVal) → String → Option StatVal
  | [], _ => none
  | (k, v) :: rest, key => if k = key then some v else findStat rest key

/-- eval_statistics after the conditional recompute (sac.py lines 154-195):
the write sequence is applied in place to the existing OrderedDict. -/
def newStats (s : TrainerState) (b : Batch) (c : Caps) : List (String × StatVal) :=
  if s.needToUpdateEvalStatistics then applyOps s.evalStatistics (statsOps s b c)
  else s.evalStatistics

/-- The _need_to_update_eval_statistics flag after a call (set to False inside
the recompute branch, sac.py line 155). -/
def newNeedFlag (s : TrainerState) : Bool :=
  if s.needToUpdateEvalStatistics then false else s.needToUpdateEvalStatistics

/-- The side-effecting operations of one training call. -/
inductive Ev where
  | policyEval1
  | entropyBackward (loss : TS)
  | entropyStep
  | policyLossConstructed (loss : TS)
  | policyEval2
  | criticTargetComputed (qTarget : TV)
  | policyBackward (loss : TS)
  | policyStep
  | qf1Backward (loss : TS)
  | qf1Step
  | qf2Backward (loss : TS)
  | qf2Step
  | targetSync
  | statsRecompute
deriving DecidableEq, Repr

/-- The operations of train_from_torch in source order: policy forward on obs
(line 86), the alpha backward and step when auto-tuning (lines 93-95), the
policy-loss construction (line 104), the policy forward on next_obs
(line 111), the q_target computation (lines 122-125), the policy backward and
step (lines 131-134), the qf1 and qf2 backwards and steps (lines 136-144),
the conditional soft update (lines 148-150), and the conditional statistics
recompute (lines 154-195). -/
def trainEvents (s : TrainerState) (b : Batch) (c : Caps) : List Ev :=
  [Ev.policyEval1]
  ++ (if s.useAutomaticEntropyTuning then
        [Ev.entropyBackward (alphaLossOf s b c), Ev.entropyStep]
      else [])
  ++ [Ev.policyLossConstructed (policyLossOf s b c),
      Ev.policyEval2,
      Ev.criticTargetComputed (qTargetT s b c),
      Ev.policyBackward (policyLossOf s b c), Ev.policyStep,
      Ev.qf1Backward (qf1LossOf s b c), Ev.qf1Step,
      Ev.qf2Backward (qf2LossOf s b c), Ev.qf2Step]
  ++ (if syncNow s then [Ev.targetSync] else [])
  ++ (if s.needToUpdateEvalStatistics then [Ev.statsRecompute] else [])

/-- The state after one successful training call, together with its trace. -/
def trainCore (s : TrainerState) (b : Batch) (c : Caps) :
    TrainerState × List Ev :=
  ({ s with
      policyP := policyStepped s b c
      qf1P := qf1Stepped s b c
      qf2P := qf2Stepped s b c
      tqf1P := newTqf1 s b c
      tqf2P := newTqf2 s b c
      logAlpha := logAlphaStepped s b c
      evalStatistics := newStats s b c
      needToUpdateEvalStatistics := newNeedFlag s
      nTrainStepsTotal := s.nTrainStepsTotal + 1 },
   trainEvents s b c)

/-- Failure modes of a call: a never-assigned optimizer attribute is accessed
(Python AttributeError). -/
inductive TErr where
  | policyOptimizerMissing
  | qf1OptimizerMissing
  | qf2OptimizerMissing
deriving DecidableEq, Repr

/-- train_from_torch (sac.py lines 77-196).  The optimizer attributes are
accessed in the order policy (line 131), qf1 (line 136), qf2 (line 141); an
unassigned one raises AttributeError, modelled as an error result (parameter
mutations made before the raising line are not retained by the model). -/
def train (s : TrainerState) (b : Batch) (c : Caps) :
    Except TErr (TrainerState × List Ev) :=
  match s.policyOptimizer with
  | none => .error .policyOptimizerMissing
  | some _ =>
    match s.qf1Optimizer with
    | none => .error .qf1OptimizerMissing
    | some _ =>
      match s.qf2Optimizer with
      | none => .error .qf2OptimizerMissing
      | some _ => .ok (trainCore s b c)

/-- end_epoch (sac.py lines 201-202): reset the statistics flag; the epoch
argument is unused. -/
def endEpoch (_epoch : ℕ) (s : TrainerState) : TrainerState :=
  { s with needToUpdateEvalStatistics := true }

/-- A sequence of training calls, stopping at the first failure. -/
def trainSeq : TrainerState → List (Batch × Caps) → Except TErr TrainerState
  | s, [] => .ok s
  | s, (b, c) :: rest =>
    match train s b c with
    | .ok (s1, _) => trainSeq s1 rest
    | .error e => .error e

/-- The payload of get_snapshot (sac.py lines 218-233): the five networks and
the three optimizers. -/
structure Snapshot where
  policyP : List ℚ
  qf1P : List ℚ
  qf2P : List ℚ
  tqf1P : List ℚ
  tqf2P : List ℚ
  policyOptimizer : Unit
  qf1Optimizer : Unit
  qf2Optimizer : Unit
deriving DecidableEq, Repr

/-- get_snapshot (sac.py lines 218-233): reads the three optimizer
attributes (policy_optimizer first), raising AttributeError on an unassigned
one. -/
def getSnapshot (s : TrainerState) : Except TErr Snapshot :=
  match s.policyOptimizer with
  | none => .error .policyOptimizerMissing
  | some po =>
    match s.qf1Optimizer with
    | none => .error .qf1OptimizerMissing
    | some q1o =>
      match s.qf2Optimizer with
      | none => .error .qf2OptimizerMissing
      | some q2o =>
        .ok ⟨s.policyP, s.qf1P, s.qf2P, s.tqf1P, s.tqf2P, po, q1o, q2o⟩

/-- States reachable through the public interface: construction, successful
training calls, and epoch boundaries. -/
inductive Reach : TrainerState → Prop where
  | start (a : InitArgs) : Reach (initTrainer a)
  | step {s : TrainerState} {b : Batch} {c : Caps} {s1 : TrainerState}
      {evs : List Ev} : Reach s → train s b c = .ok (s1, evs) → Reach s1
  | epochEnd {s : TrainerState} (epoch : ℕ) : Reach s → Reach (endEpoch epoch s)

/-- The first optimizer attribute whose access raises, in the access order of
train_from_torch and get_snapshot, for a constructor call that supplied the
given arguments. -/
def firstMissing (a : InitArgs) : TErr :=
  if a.policyOptimizer.isSome then .policyOptimizerMissing
  else if a.qf1Optimizer.isSome then .qf1OptimizerMissing
  else .qf2OptimizerMissing

/-- Recognizer for the critic-target-computation event. -/
def evIsCriticTarget : Ev → Bool
  | Ev.criticTargetComputed _ => true
  | _ => false

/-- Recognizer for the policy backward-pass event. -/
def evIsPolicyBackward : Ev → Bool
  | Ev.policyBackward _ => true
  | _ => false

/-- The state component of a successful call result, with a fallback. -/
def okPart (r : Except TErr (TrainerState × List Ev)) (d : TrainerState × List Ev) :
    TrainerState × List Ev :=
  match r with
  | .ok p => p
  | .error _ => d

/-- The state of a successful call sequence, with a fallback. -/
def okSeq (r : Except TErr TrainerState) (d : TrainerState) : TrainerState :=
  match r with
  | .ok s => s
  | .error _ => d

/-- Concrete constructor arguments used for witnesses: auto-tuning on, no
externally supplied optimizers, tau 1, update period 1. -/
def A0 : InitArgs where
  policyP := [1]
  qf1P := [2]
  qf2P := [3]
  tqf1P := [4]
  tqf2P := [5]
  discount := 99 / 100
  rewardScale := 1
  softTargetTau := 1
  targetUpdatePeriod := 1
  alpha := 1 / 5
  useAutomaticEntropyTuning := true
  targetEntropy := none
  actionDimProd := 2
  policyOptimizer := none
  qf1Optimizer := none
  qf2Optimizer := none

/-- Concrete batch of one transition used for witnesses. -/
def B0 : Batch where
  rewards := [1]
  terminals := [0]
  observations := [2]
  actions := [3]
  nextObservations := [4]

/-- Concrete capabilities used for witnesses: identity-like networks and
optimizer steps, exp replaced by the positive constant 1. -/
def C0 : Caps where
  policyF := fun _ o => ⟨o, o, o, o⟩
  qfF := fun p o _ => o.map (fun x => x + p.headD 0)
  policyStep := fun _ p => p
  qf1Step := fun _ p => p
  qf2Step := fun _ p => p
  alphaStep := fun _ la => la
  expC := fun _ => 1
  stdF := fun _ => 0
  policyNorm := 0
  qf1Norm := 0
  qf2Norm := 0

/-- Concrete initial trainer state for witnesses. -/
def S0 : TrainerState := initTrainer A0

/-- Fallback pair for okPart. -/
def D0 : TrainerState × List Ev := (S0, [])

/-- State after one training call on the concrete instance. -/
def S1 : TrainerState := (okPart (train S0 B0 C0) D0).1

/-- Trace of one training call on the concrete instance. -/
def E1 : List Ev := (okPart (train S0 B0 C0) D0).2

/-- State after two training calls on the concrete instance. -/
def S2 : TrainerState := okSeq (trainSeq S1 [(B0, C0)]) S0

/-- Concrete arguments with auto-tuning disabled and a fixed alpha. -/
def A8 : InitArgs := { A0 with useAutomaticEntropyTuning := false }

/-- Concrete state with auto-tuning disabled. -/
def S8 : TrainerState := initTrainer A8

/-- State after one training call with auto-tuning disabled. -/
def S8a : TrainerState := (okPart (train S8 B0 C0) D0).1

/-- Trace of one training call with auto-tuning disabled. -/
def E8 : List Ev := (okPart (train S8 B0 C0) D0).2

/-- Concrete arguments that supply an external policy optimizer. -/
def A9 : InitArgs := { A0 with policyOptimizer := some () }

/-- Last value written for a key by a write sequence, if any. -/
def lastWrite : List (String × StatVal) → String → Option StatVal
  | [], _ => none
  | p :: rest, key =>
    match lastWrite rest key with
    | some v => some v
    | none => if key = p.1 then some p.2 else none

/-- The key sequence written by every statistics recompute; it does not
depend on the batch, the capabilities, or the trainer state. -/
def statsKeys : List String :=
  ["QF1 Loss", "QF2 Loss", "Policy Loss",
   "QF1 Grad Norm", "QF2 Grad Norm", "Policy Grad Norm"]
  ++ ["Q1 Predictions Mean", "Q1 Predictions Std",
      "Q1 Predictions Max", "Q1 Predictions Min"]
  ++ ["Q2 Predictions Mean", "Q2 Predictions Std",
      "Q2 Predictions Max", "Q2 Predictions Min"]
  ++ ["Q1 Predictions Mean", "Q1 Predictions Std",
      "Q1 Predictions Max", "Q1 Predictions Min"]
  ++ ["Q2 Predictions Mean", "Q2 Predictions Std",
      "Q2 Predictions Max", "Q2 Predictions Min"]
  ++ ["Q Targets Mean", "Q Targets Std", "Q Targets Max", "Q Targets Min"]
  ++ ["Log Pis Mean", "Log Pis Std", "Log Pis Max", "Log Pis Min"]
  ++ ["Policy mu Mean", "Policy mu Std", "Policy mu Max", "Policy mu Min"]
  ++ ["Policy log std Mean", "Policy log std Std",
      "Policy log std Max", "Policy log std Min"]
  ++ ["Alpha", "Alpha Loss"]

theorem statsOps_keys (s : TrainerState) (b : Batch) (c : Caps) :
    (statsOps s b c).map Prod.fst = statsKeys := rfl

theorem mean_nonneg {xs : List ℚ} (h : ∀ x ∈ xs, 0 ≤ x) : 0 ≤ mean xs := by
  unfold mean
  exact div_nonneg (List.sum_nonneg h) (Nat.cast_nonneg _)

theorem sq_diff_list_nonneg (xs : List ℚ) :
    ∀ ys : List ℚ, ∀ x ∈ List.zipWith (fun a b => (a - b) ^ 2) xs ys, 0 ≤ x := by
  induction xs with
  | nil => intro ys x hx; simp at hx
  | cons a as ih =>
    intro ys x hx
    cases ys with
    | nil => simp at hx
    | cons b bs =>
      rcases List.mem_cons.mp hx with h | h
      · exact h ▸ sq_nonneg _
      · exact ih bs x h

theorem mse_nonneg (pred target : List ℚ) : 0 ≤ mse pred target := by
  unfold mse
  exact mean_nonneg (sq_diff_list_nonneg pred target)

theorem softUpd_one {online target : List ℚ}
    (h : online.length = target.length) : softUpd 1 online target = online := by
  unfold softUpd
  induction online generalizing target with
  | nil => simp
  | cons o os ih =>
    cases target with
    | nil => simp at h
    | cons t ts =>
      simp only [List.zipWith_cons_cons, List.length_cons] at h ⊢
      have h1 : 1 * o + (1 - 1) * t = o := by ring
      rw [h1, ih (by omega)]

theorem train_ok_elim {s : TrainerState} {b : Batch} {c : Caps}
    {s1 : TrainerState} {evs : List Ev} (h : train s b c = .ok (s1, evs)) :
    s1 = (trainCore s b c).1 ∧ evs = (trainCore s b c).2 := by
  unfold train at h
  rcases hpo : s.policyOptimizer with _ | po <;> rw [hpo] at h
  · exact absurd h (by simp)
  · rcases hq1 : s.qf1Optimizer with _ | q1 <;> rw [hq1] at h
    · exact absurd h (by simp)
    · rcases hq2 : s.qf2Optimizer with _ | q2 <;> rw [hq2] at h
      · exact absurd h (by simp)
      · rw [Except.ok.injEq] at h
        exact ⟨congrArg Prod.fst h.symm, congrArg Prod.snd h.symm⟩

theorem trainCore_evalStatistics (s : TrainerState) (b : Batch) (c : Caps) :
    (trainCore s b c).1.evalStatistics = newStats s b c := rfl

theorem trainCore_needFlag (s : TrainerState) (b : Batch) (c : Caps) :
    (trainCore s b c).1.needToUpdateEvalStatistics = newNeedFlag s := rfl

theorem trainCore_events (s : TrainerState) (b : Batch) (c : Caps) :
    (trainCore s b c).2 = trainEvents s b c := rfl

theorem findStat_updOne_self (m : List (String × StatVal)) (k : String)
    (v : StatVal) : findStat (updOne m k v) k = some v := by
  induction m with
  | nil => simp [updOne, findStat]
  | cons p rest ih =>
    unfold updOne
    by_cases hp : p.1 = k
    · simp [hp, findStat]
    · simp only [if_neg hp, findStat, if_neg hp]
      exact ih

theorem findStat_updOne_ne (m : List (String × StatVal)) (k key : String)
    (v : StatVal) (hne : key ≠ k) :
    findStat (updOne m k v) key = findStat m key := by
  induction m with
  | nil =>
    simp only [updOne, findStat, ite_eq_right_iff]
    exact fun h => absurd h.symm hne
  | cons p rest ih =>
    unfold updOne
    by_cases hp : p.1 = k
    · have hk : ¬(k = key) := fun h => hne h.symm
      simp [hp, findStat, hk]
    · simp only [if_neg hp, findStat]
      by_cases hpk : p.1 = key
      · simp [hpk]
      · simp only [if_neg hpk]
        exact ih

theorem findStat_applyOps (m ops : List (String × StatVal)) (key : String) :
    findStat (applyOps m ops) key =
      match lastWrite ops key with
      | some v => some v
      | none => findStat m key := by
  induction ops generalizing m with
  | nil => simp [applyOps, lastWrite]
  | cons p rest ih =>
    show findStat (applyOps (updOne m p.1 p.2) rest) key = _
    rw [ih]
    rcases hlw : lastWrite rest key with _ | v
    · simp only [lastWrite, hlw]
      by_cases hk : key = p.1
      · subst hk
        simp [findStat_updOne_self]
      · simp [findStat_updOne_ne m p.1 key p.2 hk, hk]
    · simp [lastWrite, hlw]

theorem lastWrite_isSome_of_mem {ops : List (String × StatVal)} {key : String}
    (h : key ∈ ops.map Prod.fst) : (lastWrite ops key).isSome := by
  induction ops with
  | nil => simp at h
  | cons p rest ih =>
    simp only [List.map_cons, List.mem_cons] at h
    unfold lastWrite
    rcases hlw : lastWrite rest key with _ | v
    · rcases h with h | h
      · simp [h]
      · have := ih h
        rw [hlw] at this
        simp at this
    · simp

theorem mem_of_lastWrite_isSome {ops : List (String × StatVal)} {key : String}
    (h : (lastWrite ops key).isSome) : key ∈ ops.map Prod.fst := by
  induction ops with
  | nil => simp [lastWrite] at h
  | cons p rest ih =>
    unfold lastWrite at h
    rcases hlw : lastWrite rest key with _ | v
    · rw [hlw] at h
      simp only [List.map_cons, List.mem_cons]
      by_cases hk : key = p.1
      · exact Or.inl hk
      · simp [hk] at h
    · rw [hlw] at h
      exact List.mem_cons_of_mem _ (ih (by simp [hlw]))

theorem reach_stats_keys {s : TrainerState} (hr : Reach s) :
    ∀ key, (findStat s.evalStatistics key).isSome → key ∈ statsKeys := by
  induction hr with
  | start a => intro key h; simp [initTrainer, findStat] at h
  | step hr htrain ih =>
    rename_i s b c s1 evs
    intro key h
    have hs1 := (train_ok_elim htrain).1
    have hstats : s1.evalStatistics = newStats s b c := by rw [hs1]; rfl
    rw [hstats] at h
    unfold newStats at h
    by_cases hn : s.needToUpdateEvalStatistics
    · rw [if_pos hn, findStat_applyOps] at h
      rcases hlw : lastWrite (statsOps s b c) key with _ | v
      · rw [hlw] at h
        exact ih key h
      · have : key ∈ (statsOps s b c).map Prod.fst :=
          mem_of_lastWrite_isSome (by simp [hlw])
        rwa [statsOps_keys] at this
    · rw [if_neg hn] at h
      exact ih key h
  | epochEnd epoch hr ih => exact ih

/-- C2: q_target equals reward_scale * reward + (1 - terminal) * discount *
(min(target_qf1(next_obs, a'), target_qf2(next_obs, a')) - alpha * log_pi(a'))
where a' is the fresh bootstrap action sampled from the policy at
next_observations (never the replayed batch action); the same q_target is
used for both critic losses, it is detached (no autograd connectivity flows
into either loss from the target side), and both mean-squared-error losses
are nonnegative. -/
theorem sac_c2_q_target (s : TrainerState) (b : Batch) (c : Caps) :
    (qTargetT s b c).vals =
      zipW3 (fun r t v => s.rewardScale * r + (1 - t) * s.discount * v)
        b.rewards b.terminals
        (List.zipWith (fun m l => m - (alphaUsed s b c).val * l)
          (List.zipWith min
            (c.qfF s.tqf1P b.nextObservations
              (c.policyF s.policyP b.nextObservations).action)
            (c.qfF s.tqf2P b.nextObservations
              (c.policyF s.policyP b.nextObservations).action))
          (c.policyF s.policyP b.nextObservations).logPi)
    ∧ (peTwo s b c).action = (c.policyF s.policyP b.nextObservations).action
    ∧ qf1LossOf s b c =
        ⟨mse (q1PredT s b c).vals (qTargetT s b c).vals, [PGroup.qf1G]⟩
    ∧ qf2LossOf s b c =
        ⟨mse (q2PredT s b c).vals (qTargetT s b c).vals, [PGroup.qf2G]⟩
    ∧ qTargetDetachedT s b c = ⟨(qTargetT s b c).vals, []⟩
    ∧ 0 ≤ (qf1LossOf s b c).val ∧ 0 ≤ (qf2LossOf s b c).val := by
  exact ⟨rfl, rfl, rfl, rfl, rfl, mse_nonneg _ _, mse_nonneg _ _⟩

/-- C1 (counterexample): on a concrete training call the critic target
computation appears strictly before the policy backward pass in the
operation trace, contradicting the claimed sequencing in which the critic
target computation comes only after the policy backward pass and optimizer
step. -/
theorem sac_c1_counterexample :
    (trainEvents S0 B0 C0).any evIsCriticTarget = true
    ∧ (trainEvents S0 B0 C0).any evIsPolicyBackward = true
    ∧ (trainEvents S0 B0 C0).findIdx evIsCriticTarget <
        (trainEvents S0 B0 C0).findIdx evIsPolicyBackward := by
  decide

/-- C1 (amended): in every successful training call the operation trace is
exactly: policy evaluation, entropy backward and step, policy-loss
construction (using the entry-state, pre-update critic parameters), second
policy evaluation, critic target computation, policy backward and optimizer
step, then the qf1 and qf2 backward passes and optimizer steps, then the
conditional target sync and statistics recompute.  In particular the policy
parameters are stepped before any critic parameter changes, and the critic
target computation occurs after the policy-loss construction but before (not
after) the policy backward pass. -/
theorem sac_c1_sequencing (s : TrainerState) (b : Batch) (c : Caps)
    (s1 : TrainerState) (evs : List Ev)
    (ha : s.useAutomaticEntropyTuning = true)
    (h : train s b c = .ok (s1, evs)) :
    evs = [Ev.policyEval1,
           Ev.entropyBackward (alphaLossOf s b c), Ev.entropyStep,
           Ev.policyLossConstructed (policyLossOf s b c),
           Ev.policyEval2,
           Ev.criticTargetComputed (qTargetT s b c),
           Ev.policyBackward (policyLossOf s b c), Ev.policyStep,
           Ev.qf1Backward (qf1LossOf s b c), Ev.qf1Step,
           Ev.qf2Backward (qf2LossOf s b c), Ev.qf2Step]
          ++ (if syncNow s then [Ev.targetSync] else [])
          ++ (if s.needToUpdateEvalStatistics then [Ev.statsRecompute] else [])
    ∧ (qNewActions s b c).vals =
        List.zipWith min (c.qfF s.qf1P b.observations (peOne s b c).action)
                         (c.qfF s.qf2P b.observations (peOne s b c).action)
    ∧ s1.policyP = c.policyStep (policyLossOf s b c).val s.policyP
    ∧ s1.qf1P = c.qf1Step (qf1LossOf s b c).val s.qf1P
    ∧ s1.qf2P = c.qf2Step (qf2LossOf s b c).val s.qf2P := by
  obtain ⟨hs, he⟩ := train_ok_elim h
  subst hs; subst he
  refine ⟨?_, rfl, rfl, rfl, rfl⟩
  show trainEvents s b c = _
  simp [trainEvents, ha]

/-- C3 (counterexample): on a concrete training call with auto-tuning
enabled, log_alpha is in the autograd connectivity of both the returned alpha
and the policy loss: alpha = log_alpha.exp() is not detached, so gradient
does flow from the policy loss back into log_alpha, contradicting the
claim. -/
theorem sac_c3_counterexample :
    PGroup.logAlphaG ∈ (policyLossOf S0 B0 C0).deps
    ∧ PGroup.logAlphaG ∈ (alphaUsed S0 B0 C0).deps := by
  decide

/-- C3 (amended): with auto-tuning enabled, each call computes alpha_loss =
-mean(log_alpha * stopgrad(log_pi + target_entropy)) with only log_alpha in
its connectivity, performs exactly one entropy optimizer step (the new
log_alpha is the dedicated optimizer step applied to the old), uses alpha =
exp(log_alpha) which is positive whenever exp is, but returns alpha without
detaching it, so the policy loss remains connected to log_alpha in the
autograd graph. -/
theorem sac_c3_alpha (s : TrainerState) (b : Batch) (c : Caps)
    (s1 : TrainerState) (evs : List Ev)
    (ha : s.useAutomaticEntropyTuning = true)
    (h : train s b c = .ok (s1, evs))
    (hexp : ∀ x : ℚ, 0 < c.expC x) :
    alphaLossOf s b c =
      ⟨-(mean ((peOne s b c).logPi.map (fun l => s.logAlpha * (l + s.targetEntropy)))),
       [PGroup.logAlphaG]⟩
    ∧ s1.logAlpha = c.alphaStep (alphaLossOf s b c).val s.logAlpha
    ∧ evs.count Ev.entropyStep = 1
    ∧ (alphaUsed s b c).val = c.expC (logAlphaStepped s b c)
    ∧ 0 < (alphaUsed s b c).val
    ∧ PGroup.logAlphaG ∈ (alphaUsed s b c).deps
    ∧ PGroup.logAlphaG ∈ (policyLossOf s b c).deps := by
  obtain ⟨hs, he⟩ := train_ok_elim h
  subst hs; subst he
  refine ⟨?_, ?_, ?_, ?_, ?_, ?_, ?_⟩
  · simp [alphaLossOf, ha, logPiT]
  · show logAlphaStepped s b c = _
    simp [logAlphaStepped, ha]
  · show (trainEvents s b c).count Ev.entropyStep = 1
    cases hsy : syncNow s <;>
      cases hnd : s.needToUpdateEvalStatistics <;>
        simp [trainEvents, ha, hsy, hnd, List.count_append, List.count_cons]
  · simp [alphaUsed, ha]
  · simpa [alphaUsed, ha] using hexp (logAlphaStepped s b c)
  · simp [alphaUsed, ha]
  · simp [policyLossOf, alphaUsed, ha]

/-- C9: a non-None optimizer passed to the constructor is discarded: the
corresponding attribute is left unassigned (none exactly when the argument
was supplied), and if any of the three was supplied, the first training call
and get_snapshot both fail with the attribute-access error of the first
unassigned optimizer in access order. -/
theorem sac_c9_optimizer_discarded (a : InitArgs) (b : Batch) (c : Caps)
    (hsup : a.policyOptimizer.isSome ∨ a.qf1Optimizer.isSome ∨
      a.qf2Optimizer.isSome) :
    (initTrainer a).policyOptimizer =
      (if a.policyOptimizer.isSome then none else some ())
    ∧ (initTrainer a).qf1Optimizer =
        (if a.qf1Optimizer.isSome then none else some ())
    ∧ (initTrainer a).qf2Optimizer =
        (if a.qf2Optimizer.isSome then none else some ())
    ∧ train (initTrainer a) b c = .error (firstMissing a)
    ∧ getSnapshot (initTrainer a) = .error (firstMissing a) := by
  refine ⟨rfl, rfl, rfl, ?_, ?_⟩ <;>
    rcases hpo : a.policyOptimizer with _ | u <;>
      rcases hq1 : a.qf1Optimizer with _ | u1 <;>
        rcases hq2 : a.qf2Optimizer with _ | u2 <;>
          simp [train, getSnapshot, initTrainer, firstMissing,
            hpo, hq1, hq2] at hsup ⊢

/-- C10: with auto-tuning enabled, a user-supplied target_entropy of 0 (or a
missing one) is ignored in favor of the heuristic -prod(action_space.shape),
and a nonzero supplied target_entropy is honored. -/
theorem sac_c10_target_entropy (a : InitArgs)
    (ha : a.useAutomaticEntropyTuning = true) :
    (initTrainer { a with targetEntropy := some 0 }).targetEntropy =
      -a.actionDimProd
    ∧ (∀ t : ℚ, t ≠ 0 →
        (initTrainer { a with targetEntropy := some t }).targetEntropy = t)
    ∧ (initTrainer { a with targetEntropy := none }).targetEntropy =
        -a.actionDimProd := by
  refine ⟨?_, ?_, ?_⟩
  · simp [initTrainer, ha]
  · intro t ht
    simp [initTrainer, ha, ht]
  · simp [initTrainer, ha]

/-- C4: the soft-update trigger is evaluated on the counter value before the
increment of this call: when the entry-state counter is divisible by
target_update_period, each target network parameter becomes
tau * online + (1 - tau) * target against the just-stepped online critic
(so tau = 1 makes the targets equal the online critics), and otherwise both
target parameter lists are left unchanged; the counter increments by one
afterwards. -/
theorem sac_c4_soft_update (s : TrainerState) (b : Batch) (c : Caps)
    (s1 : TrainerState) (evs : List Ev)
    (h : train s b c = .ok (s1, evs))
    (hl1 : (qf1Stepped s b c).length = s.tqf1P.length)
    (hl2 : (qf2Stepped s b c).length = s.tqf2P.length) :
    s1.nTrainStepsTotal = s.nTrainStepsTotal + 1
    ∧ (s.nTrainStepsTotal % s.targetUpdatePeriod = 0 →
        s1.tqf1P = softUpd s.softTargetTau (qf1Stepped s b c) s.tqf1P
        ∧ s1.tqf2P = softUpd s.softTargetTau (qf2Stepped s b c) s.tqf2P
        ∧ (s.softTargetTau = 1 →
            s1.tqf1P = qf1Stepped s b c ∧ s1.tqf2P = qf2Stepped s b c))
    ∧ (s.nTrainStepsTotal % s.targetUpdatePeriod ≠ 0 →
        s1.tqf1P = s.tqf1P ∧ s1.tqf2P = s.tqf2P) := by
  obtain ⟨hs, he⟩ := train_ok_elim h
  subst hs
  refine ⟨rfl, ?_, ?_⟩
  · intro hc
    have hsy : syncNow s = true := by simp [syncNow, hc]
    have h1 : newTqf1 s b c = softUpd s.softTargetTau (qf1Stepped s b c) s.tqf1P := by
      simp [newTqf1, hsy]
    have h2 : newTqf2 s b c = softUpd s.softTargetTau (qf2Stepped s b c) s.tqf2P := by
      simp [newTqf2, hsy]
    refine ⟨h1, h2, ?_⟩
    intro htau
    constructor
    · show newTqf1 s b c = _
      rw [h1, htau, softUpd_one hl1]
    · show newTqf2 s b c = _
      rw [h2, htau, softUpd_one hl2]
  · intro hc
    have hsy : syncNow s = false := by simp [syncNow, hc]
    constructor
    · show newTqf1 s b c = _
      simp [newTqf1, hsy]
    · show newTqf2 s b c = _
      simp [newTqf2, hsy]

/-- C5: the policy loss backpropagated in the call is
mean(alpha * log_pi - q_new_actions) with q_new_actions the minimum of the
two live (entry-state) critics on the fresh action, while the Policy Loss
diagnostic written on a statistics recompute is mean(log_pi - q_new_actions),
without the alpha factor. -/
theorem sac_c5_policy_loss (s : TrainerState) (b : Batch) (c : Caps)
    (s1 : TrainerState) (evs : List Ev)
    (h : train s b c = .ok (s1, evs))
    (hn : s.needToUpdateEvalStatistics = true) :
    (policyLossOf s b c).val =
      mean (List.zipWith (fun l q => (alphaUsed s b c).val * l - q)
        (c.policyF s.policyP b.observations).logPi
        (List.zipWith min (c.qfF s.qf1P b.observations (peOne s b c).action)
                          (c.qfF s.qf2P b.observations (peOne s b c).action)))
    ∧ Ev.policyBackward (policyLossOf s b c) ∈ evs
    ∧ findStat s1.evalStatistics "Policy Loss" =
        some (StatVal.num (mean (List.zipWith (fun l q => l - q)
          (c.policyF s.policyP b.observations).logPi (qNewActions s b c).vals))) := by
  obtain ⟨hs, he⟩ := train_ok_elim h
  subst hs; subst he
  refine ⟨rfl, ?_, ?_⟩
  · show Ev.policyBackward _ ∈ trainEvents s b c
    simp [trainEvents]
  · show findStat (newStats s b c) "Policy Loss" = _
    rw [newStats, if_pos hn, findStat_applyOps]
    have hlw : lastWrite (statsOps s b c) "Policy Loss" =
        some (StatVal.num (reportedPolicyLoss s b c)) := by
      simp +decide [statsOps, statsDictM, lastWrite]
    rw [hlw]
    rfl

/-- C8: with auto-tuning disabled, a training call uses the fixed constant
alpha (a detached leaf), leaves both the stored alpha and log_alpha
unchanged, performs no entropy optimizer step, and on a statistics recompute
records the not-a-number sentinel for the Alpha Loss diagnostic. -/
theorem sac_c8_fixed_alpha (s : TrainerState) (b : Batch) (c : Caps)
    (s1 : TrainerState) (evs : List Ev)
    (ha : s.useAutomaticEntropyTuning = false)
    (h : train s b c = .ok (s1, evs))
    (hn : s.needToUpdateEvalStatistics = true) :
    alphaUsed s b c = ⟨s.alpha, []⟩
    ∧ s1.alpha = s.alpha
    ∧ s1.logAlpha = s.logAlpha
    ∧ evs.count Ev.entropyStep = 0
    ∧ findStat s1.evalStatistics "Alpha Loss" = some StatVal.nan := by
  obtain ⟨hs, he⟩ := train_ok_elim h
  subst hs; subst he
  refine ⟨?_, rfl, ?_, ?_, ?_⟩
  · simp [alphaUsed, ha]
  · show logAlphaStepped s b c = _
    simp [logAlphaStepped, ha]
  · show (trainEvents s b c).count Ev.entropyStep = 0
    cases hsy : syncNow s <;>
      cases hnd : s.needToUpdateEvalStatistics <;>
        simp [trainEvents, ha, hsy, hnd, List.count_append, List.count_cons]
  · show findStat (newStats s b c) "Alpha Loss" = _
    rw [newStats, if_pos hn, findStat_applyOps]
    have hlw : lastWrite (statsOps s b c) "Alpha Loss" = some StatVal.nan := by
      simp +decide [statsOps, statsDictM, lastWrite, ha]
    rw [hlw]

/-- The statistics flag is false after every successful call. -/
theorem newNeedFlag_false (s : TrainerState) : newNeedFlag s = false := by
  unfold newNeedFlag
  cases h : s.needToUpdateEvalStatistics <;> simp [h]

/-- Once the statistics flag is false, further successful calls leave the
statistics snapshot and the flag unchanged. -/
theorem trainSeq_stats_frozen {s : TrainerState}
    {rest : List (Batch × Caps)} {sN : TrainerState}
    (hne : s.needToUpdateEvalStatistics = false)
    (h : trainSeq s rest = .ok sN) :
    sN.evalStatistics = s.evalStatistics
    ∧ sN.needToUpdateEvalStatistics = false := by
  induction rest generalizing s with
  | nil =>
    simp only [trainSeq, Except.ok.injEq] at h
    subst h
    exact ⟨rfl, hne⟩
  | cons p rest ih =>
    rcases p with ⟨pb, pc⟩
    unfold trainSeq at h
    rcases htr : train s pb pc with e | ⟨sm, evm⟩ <;> rw [htr] at h
    · exact absurd h (by simp)
    · obtain ⟨hsm, _⟩ := train_ok_elim htr
      have hms : sm.evalStatistics = s.evalStatistics := by
        rw [hsm]
        show newStats s pb pc = _
        rw [newStats, if_neg (by simp [hne])]
      have hmf : sm.needToUpdateEvalStatistics = false := by
        rw [hsm]
        exact newNeedFlag_false s
      obtain ⟨hN1, hN2⟩ := ih hmf h
      exact ⟨hN1.trans hms, hN2⟩

/-- C7: after one training call, any further sequence of successful calls
without an epoch boundary leaves EvalStatistics exactly as after the first
call, while end_epoch followed by one call always reruns the recompute: the
flag is reset to true, the statistics are the recompute applied to the
current snapshot, and the trace contains the recompute event. -/
theorem sac_c7_stats_epoch (s : TrainerState) (b : Batch) (c : Caps)
    (s1 sN : TrainerState) (evs1 : List Ev) (rest : List (Batch × Caps))
    (b2 : Batch) (c2 : Caps) (s2 : TrainerState) (evs2 : List Ev) (epoch : ℕ)
    (h1 : train s b c = .ok (s1, evs1))
    (h2 : trainSeq s1 rest = .ok sN)
    (h3 : train (endEpoch epoch s) b2 c2 = .ok (s2, evs2)) :
    sN.evalStatistics = s1.evalStatistics
    ∧ (endEpoch epoch s).needToUpdateEvalStatistics = true
    ∧ s2.evalStatistics =
        applyOps (endEpoch epoch s).evalStatistics
          (statsOps (endEpoch epoch s) b2 c2)
    ∧ Ev.statsRecompute ∈ evs2 := by
  have hf1 : s1.needToUpdateEvalStatistics = false := by
    rw [(train_ok_elim h1).1]
    exact newNeedFlag_false s
  obtain ⟨ha1, _⟩ := trainSeq_stats_frozen hf1 h2
  obtain ⟨hs2, he2⟩ := train_ok_elim h3
  subst hs2; subst he2
  have hne : (endEpoch epoch s).needToUpdateEvalStatistics = true := rfl
  refine ⟨ha1, rfl, ?_, ?_⟩
  · rw [trainCore_evalStatistics, newStats, if_pos hne]
  · rw [trainCore_events]
    simp [trainEvents, hne]

/-- C6: on every reachable state whose statistics flag is set, a successful
training call leaves EvalStatistics extensionally equal to the mapping built
from scratch by this call's recompute: every key maps to this recompute's
value and no key from any earlier recompute survives. -/
theorem sac_c6_stats_replaced (s : TrainerState) (b : Batch) (c : Caps)
    (s1 : TrainerState) (evs : List Ev)
    (hr : Reach s) (hn : s.needToUpdateEvalStatistics = true)
    (h : train s b c = .ok (s1, evs)) (key : String) :
    findStat s1.evalStatistics key =
      findStat (applyOps [] (statsOps s b c)) key := by
  obtain ⟨hs, _⟩ := train_ok_elim h
  subst hs
  show findStat (newStats s b c) key = _
  rw [newStats, if_pos hn, findStat_applyOps, findStat_applyOps]
  rcases hlw : lastWrite (statsOps s b c) key with _ | v
  · rcases hfs : findStat s.evalStatistics key with _ | v0
    · rfl
    · exfalso
      have hmem := reach_stats_keys hr key (by simp [hfs])
      rw [← statsOps_keys s b c] at hmem
      have hsome := lastWrite_isSome_of_mem hmem
      rw [hlw] at hsome
      simp at hsome
  · rfl

/-- Witness for the C1 sequencing theorem at the concrete instance. -/
theorem sac_c1_sequencing_witness :
    S1.policyP = C0.policyStep (policyLossOf S0 B0 C0).val S0.policyP :=
  (sac_c1_sequencing S0 B0 C0 S1 E1 rfl rfl).2.2.1

/-- Witness for the C3 alpha theorem at the concrete instance. -/
theorem sac_c3_alpha_witness :
    S1.logAlpha = C0.alphaStep (alphaLossOf S0 B0 C0).val S0.logAlpha :=
  (sac_c3_alpha S0 B0 C0 S1 E1 rfl rfl (fun _ => by norm_num [C0])).2.1

/-- Witness for the C4 soft-update theorem at the concrete instance. -/
theorem sac_c4_soft_update_witness :
    S1.nTrainStepsTotal = S0.nTrainStepsTotal + 1 :=
  (sac_c4_soft_update S0 B0 C0 S1 E1 rfl rfl rfl).1

/-- Witness for the C5 policy-loss theorem at the concrete instance. -/
theorem sac_c5_policy_loss_witness :
    Ev.policyBackward (policyLossOf S0 B0 C0) ∈ E1 :=
  (sac_c5_policy_loss S0 B0 C0 S1 E1 rfl rfl).2.1

/-- Witness for the C6 statistics-replacement theorem at the concrete
instance. -/
theorem sac_c6_stats_replaced_witness :
    findStat S1.evalStatistics "QF1 Loss" =
      findStat (applyOps [] (statsOps S0 B0 C0)) "QF1 Loss" :=
  sac_c6_stats_replaced S0 B0 C0 S1 E1 (Reach.start A0) rfl rfl "QF1 Loss"

/-- Witness for the C7 statistics-epoch theorem at the concrete instance. -/
theorem sac_c7_stats_epoch_witness : S2.evalStatistics = S1.evalStatistics :=
  (sac_c7_stats_epoch S0 B0 C0 S1 S2 E1 [(B0, C0)] B0 C0 S1 E1 0
    rfl rfl rfl).1

/-- Witness for the C8 fixed-alpha theorem at the concrete instance. -/
theorem sac_c8_fixed_alpha_witness :
    findStat S8a.evalStatistics "Alpha Loss" = some StatVal.nan :=
  (sac_c8_fixed_alpha S8 B0 C0 S8a E8 rfl rfl rfl).2.2.2.2

/-- Witness for the C9 discarded-optimizer theorem at the concrete
instance. -/
theorem sac_c9_optimizer_discarded_witness :
    train (initTrainer A9) B0 C0 = .error (firstMissing A9) :=
  (sac_c9_optimizer_discarded A9 B0 C0 (Or.inl rfl)).2.2.2.1

/-- Witness for the C10 target-entropy theorem at the concrete instance. -/
theorem sac_c10_target_entropy_witness :
    (initTrainer { A0 with targetEntropy := some 0 }).targetEntropy =
      -A0.actionDimProd :=
  (sac_c10_target_entropy A0 rfl).1

end RlkitSac
